import Mathlib

/-!
Shallow embedding of the Stats-Of-Legends statistics core
(`src/services/MatchProcessor.ts`: MatchProcessor, ScoringService,
AggregationService; `src/app/summoner/.../page.tsx`: ChampionDetailService.mergeDeepStats).

JavaScript numbers are modelled as exact rationals (`Rat`) except where the
code applies `Math.exp`, where real numbers are used.  External collaborators
(Riot API fetches, the Prisma store, MLService, getDurationBucket from the
utils module that is not part of the statistics core) are modelled as explicit
oracle parameters; the database is an explicit state value threaded through
the processing functions.
-/

namespace SOL

/-- Kind of a timeline event (the `type` string of a Riot timeline event). -/
inductive EvKind where
  | skillLevelUp
  | itemPurchased
  | itemSold
  | itemUndo
  | otherEvent
deriving DecidableEq, Repr

/-- A timeline event.  Fields a given event kind does not carry default to 0,
matching the JS objects where absent fields compare unequal to any item id
actually present (item ids in the data are positive). -/
structure TLEvent where
  kind : EvKind
  participantId : Int := 0
  skillSlot : Int := 0
  itemId : Int := 0
  beforeId : Int := 0
  afterId : Int := 0
  timestamp : Rat := 0
deriving DecidableEq, Repr

/-- One iteration of the cleaning loop in `MatchProcessor.extractTimelineData`:
purchases and sales are pushed; an `ITEM_UNDO` pops the most recent clean event
when it is a purchase whose `itemId` equals the undo's `beforeId`, or a sale
whose `itemId` equals the undo's `afterId`; otherwise it is a no-op. -/
def cleanStep (acc : List TLEvent) (ev : TLEvent) : List TLEvent :=
  match ev.kind with
  | .itemPurchased => acc ++ [ev]
  | .itemSold => acc ++ [ev]
  | .itemUndo =>
      match acc.getLast? with
      | some lastEv =>
          if (lastEv.kind = .itemPurchased ∧ lastEv.itemId = ev.beforeId)
              ∨ (lastEv.kind = .itemSold ∧ lastEv.itemId = ev.afterId)
          then acc.dropLast
          else acc
      | none => acc
  | _ => acc

/-- The cleaning loop of `extractTimelineData`, folded over the participant's
item events in chronological order. -/
def cleanFold (evs : List TLEvent) : List TLEvent :=
  evs.foldl cleanStep []

/-- Smart constructor for an `ITEM_PURCHASED` event. -/
def purchaseEv (id : Int) (ts : Rat := 0) : TLEvent :=
  { kind := .itemPurchased, itemId := id, timestamp := ts }

/-- Smart constructor for an `ITEM_SOLD` event. -/
def soldEv (id : Int) (ts : Rat := 0) : TLEvent :=
  { kind := .itemSold, itemId := id, timestamp := ts }

/-- Smart constructor for an `ITEM_UNDO` event. -/
def undoEv (bId aId : Int) (ts : Rat := 0) : TLEvent :=
  { kind := .itemUndo, beforeId := bId, afterId := aId, timestamp := ts }

/-- An entry of a nested frequency map: `{wins, matches}` plus the `build`
payload that `extractItems` stores on the final-build key (absent = `none`). -/
structure FreqEntry where
  wins : Rat
  matchesN : Rat
  build : Option (List Int) := none
deriving DecidableEq, Repr

/-- A JS object used as a frequency map, viewed extensionally:
a partial map from string keys to entries. -/
def FreqMap : Type := String → Option FreqEntry

/-- The empty frequency map (`{}`). -/
def FreqMap.empty : FreqMap := fun _ => none

/-- `m[k] = e` (JS property assignment). -/
def FreqMap.set (m : FreqMap) (k : String) (e : FreqEntry) : FreqMap :=
  fun k' => if k' = k then some e else m k'

/-- `if (!m[k]) m[k] = {wins:0, matches:0}; m[k].wins += win?1:0; m[k].matches++`. -/
def FreqMap.bump (m : FreqMap) (k : String) (win : Bool) : FreqMap :=
  match m k with
  | some e => m.set k { e with wins := e.wins + (if win then 1 else 0), matchesN := e.matchesN + 1 }
  | none => m.set k { wins := (if win then 1 else 0), matchesN := 1 }

/-- The `merge` closure of `MatchProcessor.upsertChampionStats`: for each key of
the source, sum `wins`/`matches` into an existing target entry (the target's
other fields, such as `build`, are untouched), or install the source entry
verbatim when the key is absent in the target. -/
def mergeMaps (target source : FreqMap) : FreqMap :=
  fun k =>
    match source k with
    | none => target k
    | some sv =>
        match target k with
        | some tv => some { tv with wins := tv.wins + sv.wins, matchesN := tv.matchesN + sv.matchesN }
        | none => some sv

/-- `ChampionDetailService.mergeDeepStats` of `page.tsx`: for each key of the
source, create the target entry as `{wins:0, matches:0}` when absent, then sum
`wins` and `matches`. -/
def mergeDeepStats (target source : FreqMap) : FreqMap :=
  fun k =>
    match source k with
    | none => target k
    | some sv =>
        match target k with
        | some tv => some { tv with wins := tv.wins + sv.wins, matchesN := tv.matchesN + sv.matchesN }
        | none => some { wins := sv.wins, matchesN := sv.matchesN }

/-- Ascending insertion of an integer into a sorted list (helper for
the JS `array.sort((a, b) => a - b)` numeric sort). -/
def insertAsc (x : Int) : List Int → List Int
  | [] => [x]
  | y :: ys => if x ≤ y then x :: y :: ys else y :: insertAsc x ys

/-- The JS numeric ascending sort `array.sort((a, b) => a - b)`. -/
def sortAsc : List Int → List Int
  | [] => []
  | x :: xs => insertAsc x (sortAsc xs)

/-- `ids.join('-')` for a list of numeric ids. -/
def joinIds (ids : List Int) : String :=
  String.intercalate "-" (ids.map toString)

/-- The `IGNORED_ITEMS` set of `extractItems`. -/
def IGNORED_ITEMS : List Int :=
  [3340, 3363, 3364, 3330, 2003, 2055, 2140, 2138, 2139, 1054, 1055, 1056, 1082, 1083, 1101, 1102, 1103]

/-- The `VISION_ITEMS` set of `extractItems`. -/
def VISION_ITEMS : List Int :=
  [3340, 3363, 3364, 3330, 2055, 2049, 2045, 2044]

/-- Reference data for one item from the item map
(`tags` and the `into` upgrade list; a JS-absent `into` behaves as `[]`). -/
structure ItemData where
  tags : List String := []
  into : List Int := []
deriving DecidableEq, Repr

/-- Participant fields consumed by the aggregation pipeline of
`MatchProcessor` (a participant object of the Riot match JSON). -/
structure APart where
  participantId : Int := 0
  teamId : Int := 0
  teamPosition : String := ""
  championName : String := ""
  win : Bool := false
  kills : Rat := 0
  deaths : Rat := 0
  assists : Rat := 0
  totalDamageDealtToChampions : Rat := 0
  goldEarned : Rat := 0
  totalMinionsKilled : Rat := 0
  neutralMinionsKilled : Rat := 0
  visionScore : Rat := 0
  item0 : Int := 0
  item1 : Int := 0
  item2 : Int := 0
  item3 : Int := 0
  item4 : Int := 0
  item5 : Int := 0
  summoner1Id : Int := 0
  summoner2Id : Int := 0
  teamObjectives : Rat := 0
  perkStyles : List (String × Int × List Int) := []
  statPerkOffense : Int := 0
  statPerkFlex : Int := 0
  statPerkDefense : Int := 0

/-- First-occurrence deduplication, the JS `Array.from(new Set(xs))`. -/
def firstDedup (xs : List Int) : List Int :=
  xs.foldl (fun acc x => if x ∈ acc then acc else acc ++ [x]) []

/-- The six final item slots of a participant. -/
def finalSlots (p : APart) : List Int :=
  [p.item0, p.item1, p.item2, p.item3, p.item4, p.item5]

/-- `[item0..item5].filter(id => id && id !== 0 && !IGNORED_ITEMS.has(id))`. -/
def filteredFinalItems (p : APart) : List Int :=
  (finalSlots p).filter (fun id => id ≠ 0 ∧ id ∉ IGNORED_ITEMS)

/-- The `buildPath` filter predicate of `extractItems`: purchases of final
items that are boots or have no further upgrade path. -/
def buildPathKeep (finalItems : List Int) (itemMap : Int → Option ItemData) (e : TLEvent) : Bool :=
  if e.kind ≠ .itemPurchased ∨ e.itemId ∉ finalItems then false
  else
    match itemMap e.itemId with
    | some itemData =>
        let isBoots := "Boots" ∈ itemData.tags
        if ¬isBoots ∧ itemData.into ≠ [] then false else true
    | none => true

/-- The slot-key loop `[3,4,5].forEach(...)` of `extractItems`. -/
def slotKeysFold (coreKey : String) (ubp : List Int) (win : Bool) (m : FreqMap) : FreqMap :=
  [3, 4, 5].foldl
    (fun m idx =>
      if idx + 1 ≤ ubp.length then
        m.bump (coreKey ++ "_slot" ++ toString (idx + 1) ++ "_" ++ toString (ubp.getD idx 0)) win
      else m)
    m

/-- `MatchProcessor.extractItems`: final-build key, per-item keys, and — when
clean timeline events are available — starting-item, core-build and
situational-slot keys. -/
def extractItems (p : APart) (cleanEvents : List TLEvent) (itemMap : Int → Option ItemData) : FreqMap :=
  let finalItems := sortAsc (filteredFinalItems p)
  let finalBuildKey := joinIds finalItems
  let m0 : FreqMap :=
    if finalBuildKey ≠ "" then
      FreqMap.empty.set finalBuildKey
        { wins := (if p.win then 1 else 0), matchesN := 1, build := some finalItems }
    else FreqMap.empty
  let m1 := finalItems.foldl (fun m id => m.bump (toString id) p.win) m0
  if cleanEvents ≠ [] then
    let startingEvents := cleanEvents.filter
      (fun e => e.kind = .itemPurchased ∧ e.timestamp ≤ 60000 ∧ e.itemId ∉ VISION_ITEMS)
    let m2 :=
      if startingEvents ≠ [] then
        m1.bump ("start_" ++ joinIds (sortAsc (startingEvents.map (·.itemId)))) p.win
      else m1
    let buildPath := (cleanEvents.filter (buildPathKeep finalItems itemMap)).map (·.itemId)
    let ubp := firstDedup buildPath
    if 1 ≤ ubp.length then
      let coreIds := ubp.take (min ubp.length 3)
      let coreKey := "core_" ++ joinIds coreIds
      let m3 := m2.bump coreKey p.win
      slotKeysFold coreKey ubp p.win m3
    else m2
  else m1

/-- `MatchProcessor.normalizeRole`. -/
def normalizeRole (role : String) : String :=
  if role = "MIDDLE" then "MID"
  else if role = "BOTTOM" then "ADC"
  else if role = "UTILITY" then "SUPPORT"
  else role

/-- The rune-page key bumped once per style selection / stat perk. -/
def bumpIdKey (win : Bool) (m : FreqMap) (id : Int) : FreqMap :=
  m.bump (toString id) win

/-- `MatchProcessor.extractRunes`: one `page_`-prefixed entry for the full rune
page when both styles are present, plus one entry per selected perk id and per
non-zero stat perk id. -/
def extractRunes (p : APart) : FreqMap :=
  let perks := p.perkStyles
  let primaryStyle := perks.find? (fun s => s.1 = "primaryStyle")
  let subStyle := perks.find? (fun s => s.1 = "subStyle")
  let m0 : FreqMap :=
    match primaryStyle, subStyle with
    | some ps, some ss =>
        let pIds := joinIds ps.2.2
        let sIds := joinIds ss.2.2
        let statIds := joinIds (([p.statPerkOffense, p.statPerkFlex, p.statPerkDefense]).filter (· ≠ 0))
        let runePageKey :=
          toString ps.2.1 ++ "-" ++ toString ss.2.1 ++ "-" ++ pIds ++ "-" ++ sIds ++ "-" ++ statIds
        FreqMap.empty.set ("page_" ++ runePageKey)
          { wins := (if p.win then 1 else 0), matchesN := 1 }
    | _, _ => FreqMap.empty
  let m1 := perks.foldl (fun m style => style.2.2.foldl (bumpIdKey p.win) m) m0
  ([p.statPerkOffense, p.statPerkFlex, p.statPerkDefense]).foldl
    (fun m id => if id ≠ 0 then bumpIdKey p.win m id else m) m1

/-- `MatchProcessor.extractSpells`. -/
def extractSpells (p : APart) : FreqMap :=
  let m0 : FreqMap :=
    if p.summoner1Id ≠ 0 then
      FreqMap.empty.set (toString p.summoner1Id) { wins := (if p.win then 1 else 0), matchesN := 1 }
    else FreqMap.empty
  if p.summoner2Id ≠ 0 then m0.bump (toString p.summoner2Id) p.win else m0

/-- `MatchProcessor.extractSkillOrder`. -/
def extractSkillOrder (skillOrderString : String) (win : Bool) : FreqMap :=
  if skillOrderString ≠ "" then
    FreqMap.empty.set skillOrderString { wins := (if win then 1 else 0), matchesN := 1 }
  else FreqMap.empty

/-- The `skillMap` of `extractTimelineData`. -/
def skillSlotName (slot : Int) : String :=
  if slot = 1 then "Q" else if slot = 2 then "W" else if slot = 3 then "E"
  else if slot = 4 then "R" else ""

/-- Result of `extractTimelineData`: the skill-order string and the cleaned
item-event list. -/
structure TimelineData where
  skillOrderString : String
  cleanEvents : List TLEvent

/-- `MatchProcessor.extractTimelineData`, with the external timeline fetch
modelled as `timeline : Option (List TLEvent)` (`none` = fetch failure, handled
by the catch-all; frames are pre-flattened into one chronological event list). -/
def extractTimelineData (timeline : Option (List TLEvent)) (participantId : Int) : TimelineData :=
  match timeline with
  | none => { skillOrderString := "", cleanEvents := [] }
  | some evs =>
      let skillEvents := evs.filter
        (fun e => e.kind = .skillLevelUp ∧ e.participantId = participantId ∧ 0 < e.skillSlot ∧ e.skillSlot ≤ 4)
      let skillOrderString := String.intercalate "-" (skillEvents.map (fun e => skillSlotName e.skillSlot))
      let allItemEvents := evs.filter
        (fun e => e.participantId = participantId ∧
          (e.kind = .itemPurchased ∨ e.kind = .itemSold ∨ e.kind = .itemUndo))
      { skillOrderString := skillOrderString, cleanEvents := allItemEvents.foldl cleanStep [] }

/-- Damage/gold totals of one team. -/
structure TeamTotals where
  damage : Rat := 0
  gold : Rat := 0

/-- The `teamStats` record of `processMatch`, with a slot per fixed team id. -/
structure TeamStatsRec where
  t100 : TeamTotals := {}
  t200 : TeamTotals := {}

/-- One team of the match info (`teamId` and banned champion ids). -/
structure MTeam where
  teamId : Int := 0
  bans : List Int := []

/-- The `info` object of a match. -/
structure MatchInfo where
  participants : List APart := []
  teams : List MTeam := []
  gameDuration : Rat := 0
  gameVersion : String := ""

/-- The team-totals computation of `processMatch` (damage and gold summed for
team ids 100 and 200; other team ids are skipped). -/
def computeTeamStats (info : MatchInfo) : TeamStatsRec :=
  info.participants.foldl
    (fun ts p =>
      if p.teamId = 100 then
        { ts with t100 := { damage := ts.t100.damage + p.totalDamageDealtToChampions,
                            gold := ts.t100.gold + p.goldEarned } }
      else if p.teamId = 200 then
        { ts with t200 := { damage := ts.t200.damage + p.totalDamageDealtToChampions,
                            gold := ts.t200.gold + p.goldEarned } }
      else ts)
    {}

/-- The derived shares of `MatchProcessor.calculateShares`. -/
structure Shares where
  damageShare : Rat
  goldShare : Rat
  visionPerMin : Rat
  objPart : Rat

/-- `MatchProcessor.calculateShares` (`teamStats[p.teamId] || {damage:1, gold:1}`). -/
def calculateShares (p : APart) (info : MatchInfo) (teamStats : TeamStatsRec) : Shares :=
  let myTeamStats :=
    if p.teamId = 100 then teamStats.t100
    else if p.teamId = 200 then teamStats.t200
    else { damage := 1, gold := 1 }
  { damageShare := p.totalDamageDealtToChampions / max 1 myTeamStats.damage,
    goldShare := p.goldEarned / max 1 myTeamStats.gold,
    visionPerMin := p.visionScore / max 1 ((if info.gameDuration = 0 then 1 else info.gameDuration) / 60),
    objPart := p.teamObjectives }

/-- A `ChampionStat` row of the store. -/
structure ChampRow where
  championId : String := ""
  role : String := ""
  tier : String := ""
  patch : String := ""
  durationBucket : String := ""
  matchesN : Rat := 0
  wins : Rat := 0
  totalKills : Rat := 0
  totalDeaths : Rat := 0
  totalAssists : Rat := 0
  totalDamage : Rat := 0
  totalGold : Rat := 0
  totalCs : Rat := 0
  totalVision : Rat := 0
  totalDuration : Rat := 0
  totalDamageShare : Rat := 0
  totalGoldShare : Rat := 0
  totalVisionScorePerMin : Rat := 0
  totalObjectiveParticipation : Rat := 0
  totalDamageShareSq : Rat := 0
  totalGd15Sq : Rat := 0
  totalCsd15Sq : Rat := 0
  totalXpd15Sq : Rat := 0
  bans : Rat := 0
  items : FreqMap := FreqMap.empty
  runes : FreqMap := FreqMap.empty
  spells : FreqMap := FreqMap.empty
  skillOrder : FreqMap := FreqMap.empty

/-- A `MatchupStat` row of the store. -/
structure MatchupRow where
  championId : String := ""
  opponentId : String := ""
  role : String := ""
  tier : String := ""
  patch : String := ""
  durationBucket : String := ""
  matchesN : Rat := 0
  wins : Rat := 0
  totalKills : Rat := 0
  totalDeaths : Rat := 0
  totalAssists : Rat := 0
  totalDamage : Rat := 0
  totalGold : Rat := 0
  totalCs : Rat := 0
  totalVision : Rat := 0
  totalDuration : Rat := 0
  totalDamageShare : Rat := 0
  totalGoldShare : Rat := 0
  totalVisionScorePerMin : Rat := 0
  totalObjectiveParticipation : Rat := 0
  totalDamageShareSq : Rat := 0
  totalGd15Sq : Rat := 0
  totalCsd15Sq : Rat := 0
  totalXpd15Sq : Rat := 0

/-- A `DuoStat` row of the store. -/
structure DuoRow where
  championId : String := ""
  partnerId : String := ""
  role : String := ""
  partnerRole : String := ""
  tier : String := ""
  patch : String := ""
  matchesN : Rat := 0
  wins : Rat := 0

/-- A `ScannedMatch` idempotency marker. -/
structure ScannedRec where
  id : String := ""
  patch : String := ""
  tier : String := ""
deriving DecidableEq, Repr

/-- The store state threaded through `processMatch`. -/
structure DB where
  scanned : List ScannedRec := []
  champRows : List ChampRow := []
  matchupRows : List MatchupRow := []
  duoRows : List DuoRow := []

/-- Composite-key match for a `ChampionStat` row. -/
def champKeyEq (r : ChampRow) (championId role tier patch durationBucket : String) : Bool :=
  r.championId = championId ∧ r.role = role ∧ r.tier = tier ∧ r.patch = patch ∧
    r.durationBucket = durationBucket

/-- Ban upsert of `MatchProcessor.processBans` for one banned champion. -/
def upsertBan (db : DB) (champName tier patch durationBucket : String) : DB :=
  match db.champRows.find? (fun r => champKeyEq r champName "ALL" tier patch durationBucket) with
  | some _ =>
      { db with champRows :=
          db.champRows.map (fun r =>
            if champKeyEq r champName "ALL" tier patch durationBucket
            then { r with bans := r.bans + 1 } else r) }
  | none =>
      { db with champRows :=
          db.champRows ++
            [{ championId := champName, role := "ALL", tier := tier, patch := patch,
               durationBucket := durationBucket, bans := 1 }] }

/-- `MatchProcessor.processBans`: one ban increment per non-`-1` banned
champion found in the champion map, for every team. -/
def processBans (db : DB) (teams : List MTeam) (champMap : Int → Option String)
    (tier patch durationBucket : String) : DB :=
  teams.foldl
    (fun db team =>
      team.bans.foldl
        (fun db banId =>
          if banId ≠ -1 then
            match champMap banId with
            | some champName => upsertBan db champName tier patch durationBucket
            | none => db
          else db)
        db)
    db

/-- `MatchProcessor.upsertChampionStats`: find the row by composite key, then
either increment every counter and merge the four nested maps, or create a
fresh row carrying this participant's contribution. -/
def upsertChampionStats (db : DB) (p : APart) (info : MatchInfo)
    (role tier patch durationBucket : String) (shares : Shares)
    (items runes spells skillOrder : FreqMap) : DB :=
  let cs := (p.totalMinionsKilled + p.neutralMinionsKilled)
  match db.champRows.find? (fun r => champKeyEq r p.championName role tier patch durationBucket) with
  | some _ =>
      { db with champRows :=
          db.champRows.map (fun r =>
            if champKeyEq r p.championName role tier patch durationBucket then
              { r with
                matchesN := r.matchesN + 1,
                wins := r.wins + (if p.win then 1 else 0),
                totalKills := r.totalKills + p.kills,
                totalDeaths := r.totalDeaths + p.deaths,
                totalAssists := r.totalAssists + p.assists,
                totalDamage := r.totalDamage + p.totalDamageDealtToChampions,
                totalGold := r.totalGold + p.goldEarned,
                totalCs := r.totalCs + cs,
                totalVision := r.totalVision + p.visionScore,
                totalDuration := r.totalDuration + info.gameDuration,
                totalDamageShare := r.totalDamageShare + shares.damageShare,
                totalGoldShare := r.totalGoldShare + shares.goldShare,
                totalVisionScorePerMin := r.totalVisionScorePerMin + shares.visionPerMin,
                totalObjectiveParticipation := r.totalObjectiveParticipation + shares.objPart,
                totalDamageShareSq := r.totalDamageShareSq + shares.damageShare ^ 2,
                items := mergeMaps r.items items,
                runes := mergeMaps r.runes runes,
                spells := mergeMaps r.spells spells,
                skillOrder := mergeMaps r.skillOrder skillOrder }
            else r) }
  | none =>
      { db with champRows :=
          db.champRows ++
            [{ championId := p.championName, role := role, tier := tier, patch := patch,
               durationBucket := durationBucket,
               matchesN := 1, wins := (if p.win then 1 else 0),
               totalKills := p.kills, totalDeaths := p.deaths, totalAssists := p.assists,
               totalDamage := p.totalDamageDealtToChampions, totalGold := p.goldEarned,
               totalCs := cs, totalVision := p.visionScore, totalDuration := info.gameDuration,
               totalDamageShare := shares.damageShare, totalGoldShare := shares.goldShare,
               totalVisionScorePerMin := shares.visionPerMin,
               totalObjectiveParticipation := shares.objPart,
               totalGd15Sq := 0, totalCsd15Sq := 0, totalXpd15Sq := 0,
               totalDamageShareSq := shares.damageShare ^ 2,
               items := items, runes := runes, spells := spells, skillOrder := skillOrder }] }

/-- Composite-key match for a `MatchupStat` row. -/
def matchupKeyEq (r : MatchupRow) (championId opponentId role tier patch durationBucket : String) : Bool :=
  r.championId = championId ∧ r.opponentId = opponentId ∧ r.role = role ∧ r.tier = tier ∧
    r.patch = patch ∧ r.durationBucket = durationBucket

/-- `MatchProcessor.upsertMatchupStats`: find the opposing participant in the
same normalized role on the other team; if one exists, upsert the matchup row. -/
def upsertMatchupStats (db : DB) (p : APart) (info : MatchInfo)
    (role tier patch durationBucket : String) (shares : Shares) : DB :=
  match info.participants.find? (fun op => normalizeRole op.teamPosition = role ∧ op.teamId ≠ p.teamId) with
  | none => db
  | some opponent =>
      let cs := (p.totalMinionsKilled + p.neutralMinionsKilled)
      match db.matchupRows.find?
          (fun r => matchupKeyEq r p.championName opponent.championName role tier patch durationBucket) with
      | some _ =>
          { db with matchupRows :=
              db.matchupRows.map (fun r =>
                if matchupKeyEq r p.championName opponent.championName role tier patch durationBucket then
                  { r with
                    matchesN := r.matchesN + 1,
                    wins := r.wins + (if p.win then 1 else 0),
                    totalKills := r.totalKills + p.kills,
                    totalDeaths := r.totalDeaths + p.deaths,
                    totalAssists := r.totalAssists + p.assists,
                    totalDamage := r.totalDamage + p.totalDamageDealtToChampions,
                    totalGold := r.totalGold + p.goldEarned,
                    totalCs := r.totalCs + cs,
                    totalVision := r.totalVision + p.visionScore,
                    totalDuration := r.totalDuration + info.gameDuration,
                    totalDamageShare := r.totalDamageShare + shares.damageShare,
                    totalGoldShare := r.totalGoldShare + shares.goldShare,
                    totalVisionScorePerMin := r.totalVisionScorePerMin + shares.visionPerMin,
                    totalObjectiveParticipation := r.totalObjectiveParticipation + shares.objPart,
                    totalDamageShareSq := r.totalDamageShareSq + shares.damageShare ^ 2 }
                else r) }
      | none =>
          { db with matchupRows :=
              db.matchupRows ++
                [{ championId := p.championName, opponentId := opponent.championName,
                   role := role, tier := tier, patch := patch, durationBucket := durationBucket,
                   matchesN := 1, wins := (if p.win then 1 else 0),
                   totalKills := p.kills, totalDeaths := p.deaths, totalAssists := p.assists,
                   totalDamage := p.totalDamageDealtToChampions, totalGold := p.goldEarned,
                   totalCs := cs, totalVision := p.visionScore, totalDuration := info.gameDuration,
                   totalDamageShare := shares.damageShare, totalGoldShare := shares.goldShare,
                   totalVisionScorePerMin := shares.visionPerMin,
                   totalObjectiveParticipation := shares.objPart,
                   totalDamageShareSq := shares.damageShare ^ 2,
                   totalGd15Sq := 0, totalCsd15Sq := 0, totalXpd15Sq := 0 }] }

/-- The `validDuos` role pairings of `upsertDuoStats`. -/
def isDuoPair (role mateRole : String) : Bool :=
  [("MID", "JUNGLE"), ("ADC", "SUPPORT"), ("TOP", "JUNGLE")].any
    (fun pair => (pair.1 = role ∧ pair.2 = mateRole) ∨ (pair.2 = role ∧ pair.1 = mateRole))

/-- Composite-key match for a `DuoStat` row. -/
def duoKeyEq (r : DuoRow) (championId partnerId role partnerRole tier patch : String) : Bool :=
  r.championId = championId ∧ r.partnerId = partnerId ∧ r.role = role ∧
    r.partnerRole = partnerRole ∧ r.tier = tier ∧ r.patch = patch

/-- `MatchProcessor.upsertDuoStats`: for each teammate whose normalized role
forms one of the valid lane pairings with this participant's role, upsert the
duo row. -/
def upsertDuoStats (db : DB) (p : APart) (info : MatchInfo) (role tier patch : String) : DB :=
  let teamMates := info.participants.filter
    (fun tm => tm.teamId = p.teamId ∧ tm.participantId ≠ p.participantId)
  teamMates.foldl
    (fun db mate =>
      let mateRole := normalizeRole mate.teamPosition
      if isDuoPair role mateRole then
        match db.duoRows.find?
            (fun r => duoKeyEq r p.championName mate.championName role mateRole tier patch) with
        | some _ =>
            { db with duoRows :=
                db.duoRows.map (fun r =>
                  if duoKeyEq r p.championName mate.championName role mateRole tier patch then
                    { r with matchesN := r.matchesN + 1, wins := r.wins + (if p.win then 1 else 0) }
                  else r) }
        | none =>
            { db with duoRows :=
                db.duoRows ++
                  [{ championId := p.championName, partnerId := mate.championName,
                     role := role, partnerRole := mateRole, tier := tier, patch := patch,
                     matchesN := 1, wins := (if p.win then 1 else 0) }] }
      else db)
    db

/-- `MatchProcessor.processSingleParticipant`: normalize the role, bail out on
an empty or `Invalid` role, otherwise extract timeline-derived features and
issue the champion, matchup and duo upserts. -/
def processSingleParticipant (db : DB) (p : APart) (info : MatchInfo)
    (tier patch durationBucket : String)
    (itemMap : Int → Option ItemData) (timeline : Option (List TLEvent))
    (teamStats : TeamStatsRec) : DB :=
  let role := normalizeRole p.teamPosition
  if role = "" ∨ role = "Invalid" then db
  else
    let timelineData := extractTimelineData timeline p.participantId
    let itemStats := extractItems p timelineData.cleanEvents itemMap
    let runeStats := extractRunes p
    let spellStats := extractSpells p
    let skillOrderStats := extractSkillOrder timelineData.skillOrderString p.win
    let shares := calculateShares p info teamStats
    let db1 := upsertChampionStats db p info role tier patch durationBucket shares
      itemStats runeStats spellStats skillOrderStats
    let db2 := upsertMatchupStats db1 p info role tier patch durationBucket shares
    upsertDuoStats db2 p info role tier patch

/-- `info.gameVersion.split('.').slice(0, 2).join('.')`. -/
def patchOf (gameVersion : String) : String :=
  String.intercalate "." ((gameVersion.splitOn ".").take 2)

/-- The bucket-mutation phase of `processMatch`: bans first, then every
participant in order. -/
def aggregateMatch (db : DB) (info : MatchInfo) (tier patch durationBucket : String)
    (champMap : Int → Option String) (itemMap : Int → Option ItemData)
    (timeline : Option (List TLEvent)) : DB :=
  let db1 := processBans db info.teams champMap tier patch durationBucket
  let teamStats := computeTeamStats info
  info.participants.foldl
    (fun db p => processSingleParticipant db p info tier patch durationBucket itemMap timeline teamStats)
    db1

/-- Result status of `processMatch`. -/
inductive ProcStatus where
  | skipped
  | processed
deriving DecidableEq, Repr

/-- Appending the `ScannedMatch` marker (`prisma.scannedMatch.create`). -/
def markScanned (db : DB) (matchId patch tier : String) : DB :=
  { db with scanned := db.scanned ++ [{ id := matchId, patch := patch, tier := tier }] }

/-- `prisma.scannedMatch.findUnique({where: {id: matchId}})` as a membership test. -/
def isScanned (db : DB) (matchId : String) : Bool :=
  db.scanned.any (fun r => r.id = matchId)

/-- `MatchProcessor.processMatch` (the `jsonData` branch: the match info is
supplied; reference maps, the duration bucketing helper of the utils module,
and the timeline are oracle parameters): skip when a `ScannedMatch` marker
exists; otherwise run all bucket mutations and only then write the marker. -/
def processMatch (db : DB) (matchId : String) (tier : String) (info : MatchInfo)
    (getDurationBucket : Rat → String)
    (champMap : Int → Option String) (itemMap : Int → Option ItemData)
    (timeline : Option (List TLEvent)) : DB × ProcStatus :=
  if isScanned db matchId then (db, .skipped)
  else
    let patch := patchOf info.gameVersion
    let durationBucket := getDurationBucket info.gameDuration
    let db1 := aggregateMatch db info tier patch durationBucket champMap itemMap timeline
    (markScanned db1 matchId patch tier, .processed)

/-! ### Summoner rollup: daily heatmap (`AggregationService.generateDailyHeatmap`) -/

/-- Per-day accumulator of the heatmap data (`{count, wins, losses}`). -/
structure DayData where
  count : Nat := 0
  wins : Nat := 0
  losses : Nat := 0
deriving DecidableEq, Repr

/-- One emitted heatmap entry.  Calendar days are modelled as integers
(consecutive integers are consecutive days; `today` is the day the rollup
runs). -/
structure HeatEntry where
  date : Int
  games : Nat
  wins : Nat
  losses : Nat
  intensity : Nat
deriving DecidableEq, Repr

/-- The intensity bucketing of `generateDailyHeatmap` for one day. -/
def intensityOf (dayData : DayData) : Nat :=
  if 0 < dayData.count then
    let wr : Rat := (dayData.wins : Rat) / (dayData.count : Rat)
    if dayData.count < 3 then
      if wr ≥ 1/2 then 2 else 1
    else
      if wr < 2/5 then 2
      else if wr ≤ 3/5 then 3
      else 4
  else 0

/-- `AggregationService.generateDailyHeatmap`: the loop `for (i = 119; i >= 0;
i--)` emits one entry per day `today - i`, oldest first; a day missing from
the accumulated data counts as `{count:0, wins:0, losses:0}`. -/
def generateDailyHeatmap (heatmapData : Int → Option DayData) (today : Int) : List HeatEntry :=
  (List.range 120).map (fun (j : Nat) =>
    let i : Int := 119 - (j : Int)
    let d := today - i
    let dayData := (heatmapData d).getD {}
    { date := d, games := dayData.count, wins := dayData.wins, losses := dayData.losses,
      intensity := intensityOf dayData })

/-! ### Scoring engine (`ScoringService`)

All arithmetic up to the raw weighted z-average is exact rational arithmetic;
`Math.exp`, and everything downstream of it, is modelled over the reals. -/

/-- The seven scored metrics. -/
inductive Metric where
  | damage
  | gold
  | kda
  | cs
  | vision
  | objective
  | utility
deriving DecidableEq, Repr

/-- The list of weight keys iterated by `Object.keys(weights)`. -/
def allMetrics : List Metric :=
  [.damage, .gold, .kda, .cs, .vision, .objective, .utility]

/-- A weight vector over the seven metrics. -/
def Weights : Type := Metric → Rat

/-- The `ROLE_WEIGHTS` table. -/
def ROLE_WEIGHTS (role : String) : Option Weights :=
  if role = "TOP" then some (fun m => match m with
    | .damage => 0.20 | .gold => 0.15 | .cs => 0.15 | .kda => 0.15
    | .vision => 0.10 | .objective => 0.10 | .utility => 0.15)
  else if role = "JUNGLE" then some (fun m => match m with
    | .objective => 0.20 | .kda => 0.15 | .vision => 0.20 | .damage => 0.15
    | .gold => 0.10 | .cs => 0.05 | .utility => 0.15)
  else if role = "MID" then some (fun m => match m with
    | .damage => 0.25 | .gold => 0.20 | .kda => 0.20 | .cs => 0.15
    | .vision => 0.10 | .objective => 0.05 | .utility => 0.05)
  else if role = "ADC" then some (fun m => match m with
    | .damage => 0.30 | .gold => 0.25 | .cs => 0.20 | .kda => 0.15
    | .objective => 0.05 | .vision => 0.05 | .utility => 0.00)
  else if role = "SUPPORT" then some (fun m => match m with
    | .vision => 0.25 | .kda => 0.15 | .objective => 0.15 | .utility => 0.30
    | .damage => 0.10 | .gold => 0.05 | .cs => 0.00)
  else none

/-- The `DEFAULT_WEIGHTS` fallback vector. -/
def DEFAULT_WEIGHTS : Weights := fun m => match m with
  | .damage => 0.20 | .gold => 0.20 | .kda => 0.20 | .cs => 0.20
  | .vision => 0.10 | .objective => 0.10 | .utility => 0.00

/-- The `CLASS_MODIFIERS` table (a modifier is defined only for the metric keys
listed for the class). -/
def CLASS_MODIFIERS (championClass : String) : Option (Metric → Option Rat) :=
  if championClass = "Mage" then some (fun m => match m with
    | .damage => some 1.2 | .utility => some 0.8 | .vision => some 1.0 | _ => none)
  else if championClass = "Assassin" then some (fun m => match m with
    | .damage => some 1.3 | .kda => some 1.2 | .utility => some 0.5 | .vision => some 0.8 | _ => none)
  else if championClass = "Tank" then some (fun m => match m with
    | .damage => some 0.7 | .utility => some 1.5 | .kda => some 1.0 | .vision => some 1.0 | _ => none)
  else if championClass = "Fighter" then some (fun m => match m with
    | .damage => some 1.1 | .utility => some 0.9 | .kda => some 1.0 | _ => none)
  else if championClass = "Marksman" then some (fun m => match m with
    | .damage => some 1.3 | .gold => some 1.2 | .utility => some 0.5 | _ => none)
  else if championClass = "Support" then some (fun m => match m with
    | .utility => some 1.3 | .vision => some 1.2 | .damage => some 0.7 | _ => none)
  else none

/-- `ScoringService.applyClassModifiers`: multiply each weight the class
defines a modifier for, but only when the current weight is truthy (non-zero). -/
def applyClassModifiers (weights : Weights) (championClass : Option String) : Weights :=
  match championClass with
  | none => weights
  | some cls =>
      match CLASS_MODIFIERS cls with
      | none => weights
      | some mods => fun m =>
          match mods m with
          | some r => if weights m ≠ 0 then weights m * r else weights m
          | none => weights m

/-- A participant as consumed by the scoring engine (the `Participant` type of
the UI layer; fields the engine reads). -/
structure SPart where
  teamPosition : String := ""
  win : Bool := false
  kills : Rat := 0
  deaths : Rat := 0
  assists : Rat := 0
  totalDamageDealtToChampions : Rat := 0
  goldEarned : Rat := 0
  totalMinionsKilled : Rat := 0
  neutralMinionsKilled : Rat := 0
  visionScore : Rat := 0
  dragonTakedowns : Rat := 0
  baronTakedowns : Rat := 0
  turretTakedowns : Rat := 0
  inhibitorTakedowns : Rat := 0
  timeCCingOthers : Rat := 0
  totalHealsOnTeammates : Rat := 0
  totalDamageShieldedOnTeammates : Rat := 0

/-- Team totals handed to `calculateScore`. -/
structure STeamStats where
  damage : Rat := 1
  gold : Rat := 1
  kills : Rat := 1

/-- Laning deltas at 15 minutes. -/
structure LaneStats where
  csd15 : Rat := 0
  gd15 : Rat := 0
  xpd15 : Rat := 0

/-- The per-match feature vector of `ScoringService.calculatePlayerStats`. -/
structure PlayerStats where
  kda : Rat := 0
  damageShare : Rat := 0
  damagePerMin : Rat := 0
  goldShare : Rat := 0
  goldPerMin : Rat := 0
  cs : Rat := 0
  vision : Rat := 0
  objective : Rat := 0
  utility : Rat := 0

/-- `ScoringService.calculatePlayerStats`. -/
def calculatePlayerStats (p : SPart) (duration : Rat) (teamStats : STeamStats)
    (weightedDeaths : Option Rat) : PlayerStats :=
  let effectiveDeaths := weightedDeaths.getD p.deaths
  { kda := (p.kills + p.assists) / max 1 effectiveDeaths,
    damageShare := p.totalDamageDealtToChampions / max 1 teamStats.damage,
    damagePerMin := p.totalDamageDealtToChampions / duration,
    goldShare := p.goldEarned / max 1 teamStats.gold,
    goldPerMin := p.goldEarned / duration,
    cs := (p.totalMinionsKilled + p.neutralMinionsKilled) / duration,
    vision := p.visionScore / duration,
    objective := p.dragonTakedowns + p.baronTakedowns + p.turretTakedowns + p.inhibitorTakedowns,
    utility := p.timeCCingOthers / duration +
      (p.totalHealsOnTeammates + p.totalDamageShieldedOnTeammates) / 1000 }

/-- A champion- or matchup-level stat bucket read by the scoring engine. -/
structure SBucket where
  matchesN : Rat := 0
  totalKills : Rat := 0
  totalDeaths : Rat := 0
  totalAssists : Rat := 0
  totalDamage : Rat := 0
  totalGold : Rat := 0
  totalCs : Rat := 0
  totalVision : Rat := 0
  totalDuration : Rat := 0
  totalDamageShare : Rat := 0
  totalGoldShare : Rat := 0
  totalObjectiveParticipation : Rat := 0
deriving DecidableEq, Repr

/-- Dynamic field lookup `stats[fieldName]` on a stat bucket (the JS record is
accessed by string field name; unknown names are `undefined`). -/
def statField (s : SBucket) (fieldName : String) : Option Rat :=
  if fieldName = "matches" then some s.matchesN
  else if fieldName = "totalKills" then some s.totalKills
  else if fieldName = "totalDeaths" then some s.totalDeaths
  else if fieldName = "totalAssists" then some s.totalAssists
  else if fieldName = "totalDamage" then some s.totalDamage
  else if fieldName = "totalGold" then some s.totalGold
  else if fieldName = "totalCs" then some s.totalCs
  else if fieldName = "totalVision" then some s.totalVision
  else if fieldName = "totalDuration" then some s.totalDuration
  else if fieldName = "totalDamageShare" then some s.totalDamageShare
  else if fieldName = "totalGoldShare" then some s.totalGoldShare
  else if fieldName = "totalObjectiveParticipation" then some s.totalObjectiveParticipation
  else none

/-- `ScoringService.extractMeanFromStats`: share means divide the accumulated
share sum by `matches`; `cs`/`vision` are per-minute rates over the summed
duration; `kda` is recomposed from per-match mean kills/deaths/assists; any
other metric yields `null`. -/
def extractMeanFromStats (stats : SBucket) (key totalKey : String) (shareKey : Option String) :
    Option Rat :=
  match shareKey with
  | some sk =>
      match statField stats sk with
      | some v => some (v / stats.matchesN)
      | none => extractMeanTotals stats key totalKey
  | none => extractMeanTotals stats key totalKey
where
  extractMeanTotals (stats : SBucket) (key totalKey : String) : Option Rat :=
    match statField stats totalKey with
    | some tv =>
        if key = "cs" ∨ key = "vision" then
          let totalMin := (if stats.totalDuration = 0 then 1 else stats.totalDuration) / 60
          some (tv / totalMin)
        else if key = "kda" then
          let k := stats.totalKills / stats.matchesN
          let d := stats.totalDeaths / stats.matchesN
          let a := stats.totalAssists / stats.matchesN
          some ((k + a) / max 1 d)
        else none
    | none => none

/-- The hard-coded `defaults` table of `getBaselineMean` (the function is only
ever called with the six listed keys). -/
def baselineDefault (key : String) : Rat :=
  if key = "kda" then 3
  else if key = "damage" then 600
  else if key = "gold" then 400
  else if key = "cs" then 6
  else if key = "vision" then 1
  else if key = "objective" then 0
  else 0

/-- `ScoringService.getBaselineMean`: champion-level empirical mean (falling
back to the default), shrunk toward the matchup-level mean with weight
`alpha = n / (n + 10)` when a matchup sample of size `n > 0` exists. -/
def getBaselineMean (key totalKey : String) (shareKey : Option String)
    (championStats matchupStats : Option SBucket) : Rat :=
  let g0 := baselineDefault key
  let globalMean :=
    match championStats with
    | some cs => if cs.matchesN > 0 then (extractMeanFromStats cs key totalKey shareKey).getD g0 else g0
    | none => g0
  let nSample : Rat × Rat :=
    match matchupStats with
    | some ms =>
        if ms.matchesN > 0 then
          (ms.matchesN, (extractMeanFromStats ms key totalKey shareKey).getD globalMean)
        else (0, globalMean)
    | none => (0, globalMean)
  let n := nSample.1
  let sampleMean := nSample.2
  if n = 0 then globalMean
  else
    let alpha := n / (n + 10)
    alpha * sampleMean + (1 - alpha) * globalMean

/-- The fixed-ratio dispersion helper `getStdDev` of `calculateZScores`. -/
def stdDevOf (mean : Rat) : Rat := max (mean * 0.4) 0.1

/-- The z-score record of `calculateZScores`. -/
structure ZScores where
  kda : Rat := 0
  damage : Rat := 0
  gold : Rat := 0
  cs : Rat := 0
  vision : Rat := 0
  objective : Rat := 0
  utility : Rat := 0
  lane : Rat := 0

/-- `ScoringService.calculateZScores`. -/
def calculateZScores (stats : PlayerStats) (championStats matchupStats : Option SBucket)
    (role : String) (laneStats : Option LaneStats) : ZScores :=
  let baselineKda := getBaselineMean "kda" "totalKills" none championStats matchupStats
  let zKda := (stats.kda - baselineKda) / stdDevOf baselineKda
  let baselineDmgShare := getBaselineMean "damage" "totalDamage" (some "totalDamageShare")
    championStats matchupStats
  let zDmgShare := (stats.damageShare - baselineDmgShare) / stdDevOf baselineDmgShare
  let baselineDmgPerMin :=
    match championStats with
    | some cs => if cs.totalDamage ≠ 0 ∧ cs.totalDuration ≠ 0
        then cs.totalDamage / (cs.totalDuration / 60) else 600
    | none => 600
  let zDmgPerMin := (stats.damagePerMin - baselineDmgPerMin) / stdDevOf baselineDmgPerMin
  let baselineGoldShare := getBaselineMean "gold" "totalGold" (some "totalGoldShare")
    championStats matchupStats
  let zGoldShare := (stats.goldShare - baselineGoldShare) / stdDevOf baselineGoldShare
  let baselineGoldPerMin :=
    match championStats with
    | some cs => if cs.totalGold ≠ 0 ∧ cs.totalDuration ≠ 0
        then cs.totalGold / (cs.totalDuration / 60) else 400
    | none => 400
  let zGoldPerMin := (stats.goldPerMin - baselineGoldPerMin) / stdDevOf baselineGoldPerMin
  let baselineCs := getBaselineMean "cs" "totalCs" none championStats matchupStats
  let baselineVision := getBaselineMean "vision" "totalVision" none championStats matchupStats
  let baselineObj0 := getBaselineMean "objective" "totalObjectiveParticipation" none
    championStats matchupStats
  let baselineObj := if baselineObj0 = 0 then 2 else baselineObj0
  let baselineUtil : Rat :=
    if role = "SUPPORT" ∨ role = "JUNGLE" then 10
    else if role = "TOP" ∨ role = "MID" then 5
    else 2
  { kda := zKda,
    damage := max zDmgShare zDmgPerMin,
    gold := max zGoldShare zGoldPerMin,
    cs := (stats.cs - baselineCs) / stdDevOf baselineCs,
    vision := (stats.vision - baselineVision) / stdDevOf baselineVision,
    objective := (stats.objective - baselineObj) / stdDevOf baselineObj,
    utility := (stats.utility - baselineUtil) / (baselineUtil * 0.5),
    lane := match laneStats with
      | some ls => (ls.csd15 / 20 + ls.gd15 / 1000 + ls.xpd15 / 1000) / 3
      | none => 0 }

/-- Projection of a `ZScores` record by metric. -/
def ZScores.get (z : ZScores) : Metric → Rat
  | .damage => z.damage
  | .gold => z.gold
  | .kda => z.kda
  | .cs => z.cs
  | .vision => z.vision
  | .objective => z.objective
  | .utility => z.utility

/-- The clip to `[-3, 3]` applied inside the weighted sum
(`Math.max(-3, Math.min(3, z))`). -/
def clip3 (z : Rat) : Rat := max (-3) (min 3 z)

/-- JS `x.toFixed(2)` converted back to a number (round half up at two
decimals). -/
def roundTo2 (x : Rat) : Rat := (⌊x * 100 + 1/2⌋ : Rat) / 100

/-- JS `x.toFixed(3)` converted back to a number. -/
def roundTo3 (x : Rat) : Rat := (⌊x * 1000 + 1/2⌋ : Rat) / 1000

/-- The weighted z sum of `calculateScore` over the seven metric keys (exact
rational addition, so the JS iteration order is immaterial). -/
def weightedZSum (weights : Weights) (z : ZScores) : Rat :=
  (allMetrics.map (fun m => clip3 (z.get m) * weights m)).sum

/-- The total weight accumulated alongside the weighted z sum. -/
def totalWeightSum (weights : Weights) : Rat :=
  (allMetrics.map weights).sum

/-- `ScoringService.transformToScore`: the logistic transform
`100 / (1 + exp(-1.7 * rawScore))`. -/
noncomputable def transformToScore (rawScore : Rat) : ℝ :=
  (1 / (1 + Real.exp (-(1.7 : ℝ) * (rawScore : ℝ)))) * 100

/-- `ScoringService.getGrade`. -/
noncomputable def getGrade (score : ℝ) : String :=
  if score ≥ 95 then "S+"
  else if score ≥ 85 then "S"
  else if score ≥ 75 then "A"
  else if score ≥ 60 then "B"
  else if score ≥ 40 then "C"
  else "D"

/-- The module-level `getScoreLabel` of the scoring file. -/
noncomputable def getScoreLabel (score : ℝ) : String :=
  if score ≥ 75 then "EXCELLENT"
  else if score ≥ 60 then "GOOD"
  else if score ≥ 40 then "AVERAGE"
  else "POOR"

/-- The per-metric breakdown of a `ScoreResult` (raw z-scores rounded to two
decimals; `lane` present only when laning stats were supplied). -/
structure Breakdown where
  kda : Rat
  damage : Rat
  gold : Rat
  vision : Rat
  cs : Rat
  objective : Rat
  utility : Rat
  lane : Option Rat
deriving DecidableEq, Repr

/-- The `ScoreResult` returned by `calculateScore`. -/
structure ScoreResult where
  score : Int
  grade : String
  breakdown : Breakdown
  comparison : String
  contribution : Rat
  sampleSize : Rat

/-- The input record of `calculateScore` (`ScoreCalculationParams`).  The
external `MLService.calculateMarginalContribution` call is modelled by the
oracle field `mlContribution`: the scalar that call returns for this input. -/
structure ScoreParams where
  participant : SPart := {}
  duration : Rat := 1
  championStats : Option SBucket := none
  matchupStats : Option SBucket := none
  teamStats : Option STeamStats := none
  laneStats : Option LaneStats := none
  matchupWinRate : Option Rat := none
  championClass : Option String := none
  weightedDeaths : Option Rat := none
  mlContribution : Rat := 0

/-- JS `Math.round` (round half toward positive infinity). -/
noncomputable def jsRound (x : ℝ) : Int := ⌊x + 1/2⌋

/-- `ScoringService.calculateScore`: weighted clipped z average, logistic
transform to 0–100, +10 win bonus, matchup-difficulty multiplier, clamp,
+5 contribution bonus when the marginal contribution exceeds 0.10, clamp,
round; the breakdown reports the unclipped z-scores rounded to two decimals. -/
noncomputable def calculateScore (params : ScoreParams) : ScoreResult :=
  let p := params.participant
  let role := if p.teamPosition = "" then "MID" else p.teamPosition
  let stats := calculatePlayerStats p params.duration
    (params.teamStats.getD { damage := 1, gold := 1, kills := 1 }) params.weightedDeaths
  let weights := applyClassModifiers ((ROLE_WEIGHTS role).getD DEFAULT_WEIGHTS) params.championClass
  let zScores := calculateZScores stats params.championStats params.matchupStats role params.laneStats
  let rawScore0 := weightedZSum weights zScores
  let totalWeight0 := totalWeightSum weights
  let rawScore1 := match params.laneStats with
    | some _ => rawScore0 + clip3 zScores.lane * 0.15
    | none => rawScore0
  let totalWeight1 := match params.laneStats with
    | some _ => totalWeight0 + 0.15
    | none => totalWeight0
  let rawScore := if totalWeight1 > 0 then rawScore1 / totalWeight1 else rawScore1
  let fs0 : ℝ := transformToScore rawScore
  let fs1 := if p.win then fs0 + 10 else fs0
  let fs2 := match params.matchupWinRate with
    | some w => fs1 * ((max 0.8 (min 1.2 (0.5 / max 0.3 w)) : Rat) : ℝ)
    | none => fs1
  let fs3 := max 0 (min 100 fs2)
  let fs4 := if params.mlContribution > 0.10 then fs3 + 5 else fs3
  let fs5 := max 0 (min 100 fs4)
  { score := jsRound fs5,
    grade := getGrade fs5,
    breakdown :=
      { kda := roundTo2 zScores.kda,
        damage := roundTo2 zScores.damage,
        gold := roundTo2 zScores.gold,
        vision := roundTo2 zScores.vision,
        cs := roundTo2 zScores.cs,
        objective := roundTo2 zScores.objective,
        utility := roundTo2 zScores.utility,
        lane := match params.laneStats with
          | some _ => some (roundTo2 zScores.lane)
          | none => none },
    comparison := getScoreLabel fs5,
    contribution := roundTo3 params.mlContribution,
    sampleSize := match params.matchupStats with
      | some ms => ms.matchesN
      | none => 0 }

/-! ### Helper lemmas -/

theorem FreqMap.set_lookup_eq (m : FreqMap) (k : String) (e : FreqEntry) :
    (m.set k e) k = some e := by
  simp [FreqMap.set]

theorem FreqMap.set_lookup_ne (m : FreqMap) (k k' : String) (e : FreqEntry) (h : k' ≠ k) :
    (m.set k e) k' = m k' := by
  simp [FreqMap.set, h]

theorem FreqMap.bump_lookup_ne (m : FreqMap) (k k' : String) (win : Bool) (h : k' ≠ k) :
    (m.bump k win) k' = m k' := by
  unfold FreqMap.bump
  cases m k <;> simp [FreqMap.set, h]

theorem scanned_foldl {α : Type} (f : DB → α → DB)
    (hf : ∀ db x, (f db x).scanned = db.scanned) (l : List α) (db : DB) :
    (l.foldl f db).scanned = db.scanned := by
  induction l generalizing db with
  | nil => rfl
  | cons x xs ih => rw [List.foldl_cons, ih, hf]

theorem scanned_upsertBan (db : DB) (champName tier patch durationBucket : String) :
    (upsertBan db champName tier patch durationBucket).scanned = db.scanned := by
  unfold upsertBan
  split <;> rfl

theorem scanned_processBans (db : DB) (teams : List MTeam) (champMap : Int → Option String)
    (tier patch durationBucket : String) :
    (processBans db teams champMap tier patch durationBucket).scanned = db.scanned := by
  unfold processBans
  refine scanned_foldl _ (fun db team => ?_) teams db
  refine scanned_foldl _ (fun db banId => ?_) team.bans db
  split
  · split
    · exact scanned_upsertBan ..
    · rfl
  · rfl

theorem scanned_upsertChampionStats (db : DB) (p : APart) (info : MatchInfo)
    (role tier patch durationBucket : String) (shares : Shares)
    (items runes spells skillOrder : FreqMap) :
    (upsertChampionStats db p info role tier patch durationBucket shares
      items runes spells skillOrder).scanned = db.scanned := by
  unfold upsertChampionStats
  split <;> rfl

theorem scanned_upsertMatchupStats (db : DB) (p : APart) (info : MatchInfo)
    (role tier patch durationBucket : String) (shares : Shares) :
    (upsertMatchupStats db p info role tier patch durationBucket shares).scanned = db.scanned := by
  unfold upsertMatchupStats
  split
  · rfl
  · split <;> rfl

theorem scanned_upsertDuoStats (db : DB) (p : APart) (info : MatchInfo)
    (role tier patch : String) :
    (upsertDuoStats db p info role tier patch).scanned = db.scanned := by
  unfold upsertDuoStats
  refine scanned_foldl _ (fun db mate => ?_) _ db
  dsimp only
  split
  · split <;> rfl
  · rfl

theorem scanned_processSingleParticipant (db : DB) (p : APart) (info : MatchInfo)
    (tier patch durationBucket : String) (itemMap : Int → Option ItemData)
    (timeline : Option (List TLEvent)) (teamStats : TeamStatsRec) :
    (processSingleParticipant db p info tier patch durationBucket itemMap timeline teamStats).scanned
      = db.scanned := by
  unfold processSingleParticipant
  dsimp only
  split
  · rfl
  · rw [scanned_upsertDuoStats, scanned_upsertMatchupStats, scanned_upsertChampionStats]

theorem scanned_aggregateMatch (db : DB) (info : MatchInfo) (tier patch durationBucket : String)
    (champMap : Int → Option String) (itemMap : Int → Option ItemData)
    (timeline : Option (List TLEvent)) :
    (aggregateMatch db info tier patch durationBucket champMap itemMap timeline).scanned
      = db.scanned := by
  unfold aggregateMatch
  rw [scanned_foldl _ (fun db p => scanned_processSingleParticipant ..), scanned_processBans]

/-! ### Claims -/

/-- Claim C1, counterexample.  The cleaner cancels a purchase only when the
undo's `beforeId` matches the purchased item id; on the claim's event sequence
`[PURCHASE(1001), PURCHASE(1002), UNDO(afterId = 1002)]` (with `beforeId = 0`)
nothing is removed, so the clean list is `[PURCHASE(1001), PURCHASE(1002)]`,
not `[PURCHASE(1001)]` as the claim states. -/
theorem c1_undo_counterexample :
    cleanFold [purchaseEv 1001, purchaseEv 1002, undoEv 0 1002]
        = [purchaseEv 1001, purchaseEv 1002]
      ∧ cleanFold [purchaseEv 1001, purchaseEv 1002, undoEv 0 1002] ≠ [purchaseEv 1001] := by
  constructor
  · decide
  · decide

/-- Claim C1, amended: an `ITEM_UNDO` cancels the most recent clean event when
that event is a purchase whose item id equals the undo's `beforeId` (or a sale
whose item id equals the undo's `afterId`): `[PURCHASE(A), PURCHASE(B),
UNDO(beforeId = B)]` cleans to `[PURCHASE(A)]`; an undo whose immediately
preceding clean event is not a matching purchase/sale (or with no preceding
event) is a no-op that removes nothing and does not fail, and an undo step
never removes anything other than the most recent event. -/
theorem c1_undo_clean (e1 e2 u : TLEvent)
    (h1 : e1.kind = .itemPurchased) (h2 : e2.kind = .itemPurchased)
    (hu : u.kind = .itemUndo) (hb : u.beforeId = e2.itemId) :
    cleanFold [e1, e2, u] = [e1]
    ∧ (∀ acc : List TLEvent, ∀ ev lastEv : TLEvent, ev.kind = .itemUndo →
        acc.getLast? = some lastEv →
        ¬((lastEv.kind = .itemPurchased ∧ lastEv.itemId = ev.beforeId)
            ∨ (lastEv.kind = .itemSold ∧ lastEv.itemId = ev.afterId)) →
        cleanStep acc ev = acc)
    ∧ (∀ ev : TLEvent, ev.kind = .itemUndo → cleanStep [] ev = [])
    ∧ (∀ acc : List TLEvent, ∀ ev : TLEvent, ev.kind = .itemUndo →
        cleanStep acc ev = acc ∨ cleanStep acc ev = acc.dropLast) := by
  refine ⟨?_, ?_, ?_, ?_⟩
  · simp [cleanFold, cleanStep, h1, h2, hu, hb]
  · intro acc ev lastEv hev hlast hnot
    unfold cleanStep
    rw [hev, hlast]
    simp [hnot]
  · intro ev hev
    unfold cleanStep
    rw [hev]
    rfl
  · intro acc ev hev
    unfold cleanStep
    rw [hev]
    cases h : acc.getLast? with
    | none => exact Or.inl rfl
    | some lastEv =>
        dsimp only
        split
        · exact Or.inr rfl
        · exact Or.inl rfl

/-- Witness for C1's amended theorem at concrete events. -/
theorem c1_undo_clean_witness :
    cleanFold [purchaseEv 1001, purchaseEv 1002, undoEv 1002 0] = [purchaseEv 1001] :=
  (c1_undo_clean (purchaseEv 1001) (purchaseEv 1002) (undoEv 1002 0)
    rfl rfl rfl rfl).1

/-- Claim C8: the daily heatmap always emits exactly 120 entries, entry `j`
being for day `today - 119 + j` (oldest to newest, window ending today); a day
with zero matches gets `games = 0` and intensity 0; a day with fewer than 3
games gets intensity 2 when its win rate is at least `0.5`, else 1; a day with
at least 3 games gets intensity 2 when its win rate is below 40%, 3 when it is
between 40% and 60% inclusive, and 4 above 60%; and a player with no matches
at all gets 120 entries all with `games = 0` and intensity 0. -/
theorem c8_heatmap (h : Int → Option DayData) (today : Int) :
    (generateDailyHeatmap h today).length = 120
    ∧ (∀ j : Nat, j < 120 →
        (generateDailyHeatmap h today)[j]? =
          some { date := today - 119 + (j : Int),
                 games := ((h (today - 119 + (j : Int))).getD {}).count,
                 wins := ((h (today - 119 + (j : Int))).getD {}).wins,
                 losses := ((h (today - 119 + (j : Int))).getD {}).losses,
                 intensity := intensityOf ((h (today - 119 + (j : Int))).getD {}) })
    ∧ (∀ dd : DayData, dd.count = 0 → intensityOf dd = 0)
    ∧ (∀ dd : DayData, 0 < dd.count → dd.count < 3 →
        intensityOf dd = if (dd.wins : Rat) / (dd.count : Rat) ≥ 1 / 2 then 2 else 1)
    ∧ (∀ dd : DayData, 3 ≤ dd.count →
        intensityOf dd =
          if (dd.wins : Rat) / (dd.count : Rat) < 2 / 5 then 2
          else if (dd.wins : Rat) / (dd.count : Rat) ≤ 3 / 5 then 3
          else 4)
    ∧ (∀ e ∈ generateDailyHeatmap (fun _ => none) today, e.games = 0 ∧ e.intensity = 0) := by
  have harith : ∀ j : Nat, today - (119 - (j : Int)) = today - 119 + (j : Int) := by
    intro j; ring
  refine ⟨?_, ?_, ?_, ?_, ?_, ?_⟩
  · simp [generateDailyHeatmap]
  · intro j hj
    unfold generateDailyHeatmap
    rw [List.getElem?_map, List.getElem?_range hj]
    simp only [Option.map_some', harith j]
  · intro dd hdd
    simp [intensityOf, hdd]
  · intro dd h1 h2
    simp only [intensityOf]
    rw [if_pos h1, if_pos h2]
  · intro dd h3
    simp only [intensityOf]
    rw [if_pos (by omega : 0 < dd.count), if_neg (by omega : ¬dd.count < 3)]
  · intro e he
    unfold generateDailyHeatmap at he
    rw [List.mem_map] at he
    obtain ⟨j, _, rfl⟩ := he
    exact ⟨rfl, rfl⟩

/-- Witness for C8 at a concrete empty history and day 0: exactly 120 entries,
and the first emitted entry is day `-119` with zero games and intensity 0. -/
theorem c8_heatmap_witness :
    (generateDailyHeatmap (fun _ => none) 0).length = 120
    ∧ (generateDailyHeatmap (fun _ => none) 0)[0]? =
        some { date := -119, games := 0, wins := 0, losses := 0, intensity := 0 } := by
  refine ⟨(c8_heatmap (fun _ => none) 0).1, ?_⟩
  have h := (c8_heatmap (fun _ => none) 0).2.1 0 (by decide)
  rw [h]
  rfl

/-- Claim C6, amended: both frequency-map merges are key-wise, field-wise sums
on `{wins, matches}` — a key absent in the target is created, a key present on
both sides has its fields summed — and grouping is immaterial (the upsert-side
`merge` is unconditionally associative, as is `mergeDeepStats`, which is also
unconditionally commutative).  For the upsert-side `merge`, which installs a
source entry verbatim on a fresh key, merging `D1` then `D2` into `B` and
merging `D2` then `D1` always agree on the `{wins, matches}` content of every
key (final conjunct, unconditional); full map equality under reordering holds
exactly up to the incidental `build` payload, i.e. unconditionally when the
deltas agree on `build` at shared keys, and is refuted otherwise by
`c6_merge_order_counterexample`. -/
theorem c6_merge_comm_assoc :
    (∀ B D : FreqMap, ∀ k : String, ∀ e : FreqEntry, B k = none → D k = some e →
      mergeMaps B D k = some e)
    ∧ (∀ B D : FreqMap, ∀ k : String, ∀ e1 e2 : FreqEntry, B k = some e1 → D k = some e2 →
      mergeMaps B D k = some { e1 with wins := e1.wins + e2.wins,
                                       matchesN := e1.matchesN + e2.matchesN })
    ∧ (∀ B D1 D2 : FreqMap,
        (∀ k : String, ∀ e1 e2 : FreqEntry, D1 k = some e1 → D2 k = some e2 →
          e1.build = e2.build) →
        mergeMaps (mergeMaps B D1) D2 = mergeMaps (mergeMaps B D2) D1)
    ∧ (∀ B D1 D2 : FreqMap,
        mergeMaps (mergeMaps B D1) D2 = mergeMaps B (mergeMaps D1 D2))
    ∧ (∀ B D1 D2 : FreqMap,
        mergeDeepStats (mergeDeepStats B D1) D2 = mergeDeepStats (mergeDeepStats B D2) D1)
    ∧ (∀ B D1 D2 : FreqMap,
        mergeDeepStats (mergeDeepStats B D1) D2 = mergeDeepStats B (mergeDeepStats D1 D2))
    ∧ (∀ B D1 D2 : FreqMap, ∀ k : String,
        Option.map (fun e => (e.wins, e.matchesN)) (mergeMaps (mergeMaps B D1) D2 k)
          = Option.map (fun e => (e.wins, e.matchesN)) (mergeMaps (mergeMaps B D2) D1 k)) := by
  refine ⟨?_, ?_, ?_, ?_, ?_, ?_, ?_⟩
  · intro B D k e hB hD
    simp [mergeMaps, hB, hD]
  · intro B D k e1 e2 hB hD
    simp [mergeMaps, hB, hD]
  · intro B D1 D2 hbuild
    funext k
    simp only [mergeMaps]
    cases h1 : D1 k with
    | none => cases h2 : D2 k <;> simp
    | some e1 =>
        cases h2 : D2 k with
        | none => simp
        | some e2 =>
            cases hB : B k with
            | none =>
                have hb := hbuild k e1 e2 h1 h2
                cases e1 with
                | mk w1 m1 b1 =>
                    cases e2 with
                    | mk w2 m2 b2 =>
                        simp only at hb
                        simp [hb, add_comm]
            | some eB =>
                simp only [Option.some.injEq, FreqEntry.mk.injEq]
                exact ⟨by ring, by ring, trivial⟩
  · intro B D1 D2
    funext k
    simp only [mergeMaps]
    cases h1 : D1 k with
    | none => cases h2 : D2 k <;> simp
    | some e1 =>
        cases h2 : D2 k with
        | none => simp
        | some e2 =>
            cases hB : B k with
            | none => simp
            | some eB => simp [add_assoc]
  · intro B D1 D2
    funext k
    simp only [mergeDeepStats]
    cases h1 : D1 k with
    | none => cases h2 : D2 k <;> simp
    | some e1 =>
        cases h2 : D2 k with
        | none => simp
        | some e2 =>
            cases hB : B k with
            | none => simp [add_comm]
            | some eB =>
                simp only [Option.some.injEq, FreqEntry.mk.injEq]
                exact ⟨by ring, by ring, trivial⟩
  · intro B D1 D2
    funext k
    simp only [mergeDeepStats]
    cases h1 : D1 k with
    | none => cases h2 : D2 k <;> simp
    | some e1 =>
        cases h2 : D2 k with
        | none => simp
        | some e2 =>
            cases hB : B k with
            | none => simp
            | some eB => simp [add_assoc]
  · intro B D1 D2 k
    simp only [mergeMaps]
    cases h1 : D1 k with
    | none => cases h2 : D2 k <;> simp
    | some e1 =>
        cases h2 : D2 k with
        | none => simp
        | some e2 =>
            cases hB : B k with
            | none =>
                simp only [Option.map_some', Option.some.injEq, Prod.mk.injEq]
                exact ⟨by ring, by ring⟩
            | some eB =>
                simp only [Option.map_some', Option.some.injEq, Prod.mk.injEq]
                exact ⟨by ring, by ring⟩

/-- A one-key delta map used by merge witnesses. -/
def singletonMap (k : String) (e : FreqEntry) : FreqMap :=
  fun k' => if k' = k then some e else none

/-- Witness for C6 at concrete one-key maps: merging the two deltas into the
empty base in either order produces the same map. -/
theorem c6_merge_comm_assoc_witness :
    mergeMaps (mergeMaps FreqMap.empty (singletonMap "3031" { wins := 1, matchesN := 1 }))
        (singletonMap "3031" { wins := 0, matchesN := 1 })
      = mergeMaps (mergeMaps FreqMap.empty (singletonMap "3031" { wins := 0, matchesN := 1 }))
        (singletonMap "3031" { wins := 1, matchesN := 1 }) := by
  refine c6_merge_comm_assoc.2.2.1 _ _ _ ?_
  intro k e1 e2 h1 h2
  simp only [singletonMap] at h1 h2
  by_cases hk : k = "3031"
  · simp only [if_pos hk] at h1 h2
    cases h1
    cases h2
    rfl
  · simp [if_neg hk] at h1

/-- Claim C2: for any metric the baseline of `getBaselineMean` equals the
champion-level empirical mean `c` exactly when the matchup sample size is zero
(and the hard-coded default when no champion bucket with positive matches
exists), equals `alpha * m + (1 - alpha) * c` with `alpha = n / (n + 10)` for
a matchup sample of size `n > 0` and matchup mean `m`, and therefore converges
to the matchup empirical mean as `n` grows. -/
theorem c2_baseline_shrinkage (key totalKey : String) (shareKey : Option String)
    (C M : SBucket) (c m : Rat)
    (hCn : 0 < C.matchesN)
    (hc : extractMeanFromStats C key totalKey shareKey = some c)
    (hm : extractMeanFromStats M key totalKey shareKey = some m) :
    getBaselineMean key totalKey shareKey (some C) none = c
    ∧ (M.matchesN ≤ 0 → getBaselineMean key totalKey shareKey (some C) (some M) = c)
    ∧ (0 < M.matchesN →
        getBaselineMean key totalKey shareKey (some C) (some M) =
          (M.matchesN / (M.matchesN + 10)) * m + (1 - M.matchesN / (M.matchesN + 10)) * c)
    ∧ getBaselineMean key totalKey shareKey none none = baselineDefault key
    ∧ (∀ ε : Rat, 0 < ε → ∃ N : Nat, ∀ M' : SBucket, (N : Rat) ≤ M'.matchesN →
        extractMeanFromStats M' key totalKey shareKey = some m →
        |getBaselineMean key totalKey shareKey (some C) (some M') - m| < ε) := by
  have hshrink : ∀ M' : SBucket, 0 < M'.matchesN →
      extractMeanFromStats M' key totalKey shareKey = some m →
      getBaselineMean key totalKey shareKey (some C) (some M') =
        (M'.matchesN / (M'.matchesN + 10)) * m + (1 - M'.matchesN / (M'.matchesN + 10)) * c := by
    intro M' hn hm'
    simp [getBaselineMean, hCn, hc, hm', hn, ne_of_gt hn]
  refine ⟨?_, ?_, fun h => hshrink M h hm, ?_, ?_⟩
  · simp [getBaselineMean, hCn, hc]
  · intro h
    simp [getBaselineMean, hCn, hc, show ¬(0 < M.matchesN) from not_lt.2 h]
  · simp [getBaselineMean]
  · intro ε hε
    refine ⟨(⌈(10 * |c - m|) / ε⌉).toNat + 1, ?_⟩
    intro M' hn hm'
    have hN1 : (1 : Rat) ≤ ((⌈(10 * |c - m|) / ε⌉).toNat + 1 : Nat) := by
      have hx : (0 : Rat) ≤ ((⌈(10 * |c - m|) / ε⌉).toNat : Nat) := Nat.cast_nonneg _
      push_cast
      push_cast at hx
      linarith
    have hn0 : (0 : Rat) < M'.matchesN := lt_of_lt_of_le (by linarith) hn
    rw [hshrink M' hn0 hm']
    have hden : (0 : Rat) < M'.matchesN + 10 := by linarith
    have hrw : M'.matchesN / (M'.matchesN + 10) * m
        + (1 - M'.matchesN / (M'.matchesN + 10)) * c - m
        = (10 / (M'.matchesN + 10)) * (c - m) := by
      field_simp
      ring
    rw [hrw, abs_mul, abs_of_pos (show (0 : Rat) < 10 / (M'.matchesN + 10) by positivity)]
    rw [div_mul_eq_mul_div, div_lt_iff hden]
    have hceil : (10 * |c - m|) / ε < M'.matchesN + 10 := by
      have h1 : (10 * |c - m|) / ε ≤ (⌈(10 * |c - m|) / ε⌉ : Rat) := Int.le_ceil _
      have h2 : ((⌈(10 * |c - m|) / ε⌉ : Int) : Rat) ≤ ((⌈(10 * |c - m|) / ε⌉.toNat : Nat) : Rat) := by
        exact_mod_cast Int.self_le_toNat _
      have h3 : ((⌈(10 * |c - m|) / ε⌉.toNat : Nat) : Rat) <
          ((⌈(10 * |c - m|) / ε⌉.toNat + 1 : Nat) : Rat) := by
        push_cast
        linarith
      linarith
    have hmul := (div_lt_iff hε).mp hceil
    nlinarith [abs_nonneg (c - m)]

/-- Witness for C2 at concrete kda buckets: champion mean 3 over 2 matches,
matchup mean 6 over 10 matches, so `alpha = 1/2` and the baseline is `9/2`;
with no matchup bucket the baseline is the champion mean 3. -/
theorem c2_baseline_shrinkage_witness :
    getBaselineMean "kda" "totalKills" none
        (some { matchesN := 2, totalKills := 8, totalDeaths := 4, totalAssists := 4 })
        (some { matchesN := 10, totalKills := 50, totalDeaths := 10, totalAssists := 10 })
      = 9 / 2
    ∧ getBaselineMean "kda" "totalKills" none
        (some { matchesN := 2, totalKills := 8, totalDeaths := 4, totalAssists := 4 }) none = 3 := by
  have h := c2_baseline_shrinkage "kda" "totalKills" none
    { matchesN := 2, totalKills := 8, totalDeaths := 4, totalAssists := 4 }
    { matchesN := 10, totalKills := 50, totalDeaths := 10, totalAssists := 10 }
    3 6 (by norm_num)
    (by norm_num [extractMeanFromStats, extractMeanFromStats.extractMeanTotals, statField]
        decide)
    (by norm_num [extractMeanFromStats, extractMeanFromStats.extractMeanTotals, statField]
        decide)
  refine ⟨?_, h.1⟩
  rw [h.2.2.1 (by norm_num)]
  norm_num

/-- Claim C3, counterexample.  For the utility metric the code divides by
`baseline * 0.5`, not by `max(baseline * 0.4, 0.1)`: with role `TOP` the
utility baseline is 5, so a raw utility of 10 gives the z-score
`(10 - 5) / 2.5 = 2`, while the claimed formula gives `(10 - 5) / 2 = 2.5`. -/
theorem c3_zscore_counterexample :
    (calculateZScores { utility := 10 } none none "TOP" none).utility = 2
    ∧ ((10 : Rat) - 5) / max ((5 : Rat) * 0.4) 0.1 = 5 / 2
    ∧ (2 : Rat) ≠ 5 / 2 := by
  refine ⟨?_, ?_, by norm_num⟩
  · norm_num [calculateZScores]
    have hneg : ¬(("TOP" : String) = "SUPPORT" ∨ ("TOP" : String) = "JUNGLE") := by decide
    simp only [if_neg hneg]
    norm_num
  · have hmax : max ((5 : Rat) * 0.4) 0.1 = 2 := by
      rw [max_eq_left (by norm_num)]
      norm_num
    rw [hmax]
    norm_num

/-- Claim C3, amended: the kda, cs, vision and objective z-scores are
`(value - baseline) / max(baseline * 0.4, 0.1)`; the damage and gold z-scores
are each the maximum of two z-scores of that shape (team-share based and
per-minute based); the utility z-score instead uses the dispersion
`baseline * 0.5` with a role-determined baseline (10 for SUPPORT/JUNGLE, 5 for
TOP/MID, 2 otherwise). -/
theorem c3_zscore_formulas (stats : PlayerStats) (cS mS : Option SBucket)
    (role : String) (lS : Option LaneStats) :
    (calculateZScores stats cS mS role lS).kda =
      (stats.kda - getBaselineMean "kda" "totalKills" none cS mS)
        / max (getBaselineMean "kda" "totalKills" none cS mS * 0.4) 0.1
    ∧ (calculateZScores stats cS mS role lS).cs =
      (stats.cs - getBaselineMean "cs" "totalCs" none cS mS)
        / max (getBaselineMean "cs" "totalCs" none cS mS * 0.4) 0.1
    ∧ (calculateZScores stats cS mS role lS).vision =
      (stats.vision - getBaselineMean "vision" "totalVision" none cS mS)
        / max (getBaselineMean "vision" "totalVision" none cS mS * 0.4) 0.1
    ∧ (calculateZScores stats cS mS role lS).objective =
      (stats.objective -
          (if getBaselineMean "objective" "totalObjectiveParticipation" none cS mS = 0 then 2
           else getBaselineMean "objective" "totalObjectiveParticipation" none cS mS))
        / max ((if getBaselineMean "objective" "totalObjectiveParticipation" none cS mS = 0 then 2
                else getBaselineMean "objective" "totalObjectiveParticipation" none cS mS) * 0.4) 0.1
    ∧ (calculateZScores stats cS mS role lS).damage =
      max ((stats.damageShare - getBaselineMean "damage" "totalDamage" (some "totalDamageShare") cS mS)
            / max (getBaselineMean "damage" "totalDamage" (some "totalDamageShare") cS mS * 0.4) 0.1)
          ((stats.damagePerMin -
              (match cS with
               | some c => if c.totalDamage ≠ 0 ∧ c.totalDuration ≠ 0
                   then c.totalDamage / (c.totalDuration / 60) else 600
               | none => 600))
            / max ((match cS with
                    | some c => if c.totalDamage ≠ 0 ∧ c.totalDuration ≠ 0
                        then c.totalDamage / (c.totalDuration / 60) else 600
                    | none => 600) * 0.4) 0.1)
    ∧ (calculateZScores stats cS mS role lS).gold =
      max ((stats.goldShare - getBaselineMean "gold" "totalGold" (some "totalGoldShare") cS mS)
            / max (getBaselineMean "gold" "totalGold" (some "totalGoldShare") cS mS * 0.4) 0.1)
          ((stats.goldPerMin -
              (match cS with
               | some c => if c.totalGold ≠ 0 ∧ c.totalDuration ≠ 0
                   then c.totalGold / (c.totalDuration / 60) else 400
               | none => 400))
            / max ((match cS with
                    | some c => if c.totalGold ≠ 0 ∧ c.totalDuration ≠ 0
                        then c.totalGold / (c.totalDuration / 60) else 400
                    | none => 400) * 0.4) 0.1)
    ∧ (calculateZScores stats cS mS role lS).utility =
      (stats.utility -
          (if role = "SUPPORT" ∨ role = "JUNGLE" then 10
           else if role = "TOP" ∨ role = "MID" then 5 else 2))
        / ((if role = "SUPPORT" ∨ role = "JUNGLE" then 10
            else if role = "TOP" ∨ role = "MID" then 5 else 2) * 0.5) := by
  exact ⟨rfl, rfl, rfl, rfl, rfl, rfl, rfl⟩

/-- The z-score record computed inside `calculateScore` (the same value the
breakdown is derived from). -/
def scoreZOf (params : ScoreParams) : ZScores :=
  calculateZScores
    (calculatePlayerStats params.participant params.duration
      (params.teamStats.getD { damage := 1, gold := 1, kills := 1 }) params.weightedDeaths)
    params.championStats params.matchupStats
    (if params.participant.teamPosition = "" then "MID" else params.participant.teamPosition)
    params.laneStats

/-- Claim C9: the `[-3, 3]` clip applies only inside the weighted average; the
breakdown of the returned `ScoreResult` holds the raw per-metric z-scores
rounded to two decimals without clipping, and on a concrete input (60 raw kda
against the default baseline 3) the reported kda breakdown is `47.5`, with
absolute value far above 3. -/
theorem c9_breakdown_unclipped :
    (∀ params : ScoreParams,
      (calculateScore params).breakdown.kda = roundTo2 (scoreZOf params).kda
      ∧ (calculateScore params).breakdown.damage = roundTo2 (scoreZOf params).damage
      ∧ (calculateScore params).breakdown.gold = roundTo2 (scoreZOf params).gold
      ∧ (calculateScore params).breakdown.vision = roundTo2 (scoreZOf params).vision
      ∧ (calculateScore params).breakdown.cs = roundTo2 (scoreZOf params).cs
      ∧ (calculateScore params).breakdown.objective = roundTo2 (scoreZOf params).objective
      ∧ (calculateScore params).breakdown.utility = roundTo2 (scoreZOf params).utility)
    ∧ 3 < (calculateScore
        { participant := { kills := 30, assists := 30, deaths := 1 }, duration := 30 }).breakdown.kda := by
  constructor
  · intro params
    exact ⟨rfl, rfl, rfl, rfl, rfl, rfl, rfl⟩
  · have h1 : (calculateScore
        { participant := { kills := 30, assists := 30, deaths := 1 }, duration := 30 }).breakdown.kda
        = roundTo2 ((scoreZOf
            { participant := { kills := 30, assists := 30, deaths := 1 }, duration := 30 }).kda) := rfl
    rw [h1]
    have h2 : (scoreZOf
        { participant := { kills := 30, assists := 30, deaths := 1 }, duration := 30 }).kda
        = 47.5 := by
      have hmax : max ((3 : Rat) * 0.4) 0.1 = 1.2 := by
        rw [max_eq_left (by norm_num)]
        norm_num
      norm_num [scoreZOf, calculateZScores, calculatePlayerStats, getBaselineMean,
        baselineDefault, stdDevOf, hmax]
    rw [h2]
    have h3 : (⌊(47.5 : Rat) * 100 + 1 / 2⌋ : Int) = 4750 := by
      rw [Int.floor_eq_iff]
      norm_num
    rw [roundTo2, h3]
    norm_num

theorem jsRound_mem (x : ℝ) (h0 : 0 ≤ x) (h1 : x ≤ 100) :
    0 ≤ jsRound x ∧ jsRound x ≤ 100 := by
  unfold jsRound
  constructor
  · exact Int.floor_nonneg.2 (by linarith)
  · have hle : x + 1 / 2 ≤ (100 : ℝ) + 1 / 2 := by linarith
    have h100 : (⌊(100 : ℝ) + 1 / 2⌋ : Int) = 100 := by
      rw [Int.floor_eq_iff]
      constructor <;> norm_num
    calc (⌊x + 1 / 2⌋ : Int) ≤ ⌊(100 : ℝ) + 1 / 2⌋ := Int.floor_le_floor hle
      _ = 100 := h100

/-- Claim C5: for every input the final returned score lies in `[0, 100]`
(the logistic transform, win bonus, difficulty multiplier, contribution bonus
and rounding are all followed by clamps that force the bound), and the grade
and comparison-label mappings are total: every real score is mapped to one of
the six grades and one of the four labels. -/
theorem c5_score_bounds :
    (∀ params : ScoreParams,
      0 ≤ (calculateScore params).score ∧ (calculateScore params).score ≤ 100)
    ∧ (∀ s : ℝ, getGrade s = "S+" ∨ getGrade s = "S" ∨ getGrade s = "A"
        ∨ getGrade s = "B" ∨ getGrade s = "C" ∨ getGrade s = "D")
    ∧ (∀ s : ℝ, getScoreLabel s = "EXCELLENT" ∨ getScoreLabel s = "GOOD"
        ∨ getScoreLabel s = "AVERAGE" ∨ getScoreLabel s = "POOR") := by
  refine ⟨?_, ?_, ?_⟩
  · intro params
    unfold calculateScore
    dsimp only
    exact jsRound_mem _ (le_max_left _ _) (max_le (by norm_num) (min_le_left _ _))
  · intro s
    unfold getGrade
    split_ifs <;> simp
  · intro s
    unfold getScoreLabel
    split_ifs <;> simp

/-- Claim C4: when a `ScannedMatch` marker for the match id exists,
`processMatch` returns a skipped result and the whole state — in particular
every bucket — is unchanged; when none exists, the resulting state is exactly
the marker appended after all bucket mutations (`aggregateMatch` itself never
touches the scanned set, so the marker is written only after the mutations);
consequently processing the same match id a second time always skips and
leaves the state of the first run unchanged. -/
theorem c4_idempotent_skip (db : DB) (matchId tier : String) (info : MatchInfo)
    (gdb : Rat → String) (champMap : Int → Option String) (itemMap : Int → Option ItemData)
    (timeline : Option (List TLEvent)) :
    (isScanned db matchId = true →
      processMatch db matchId tier info gdb champMap itemMap timeline = (db, .skipped))
    ∧ (isScanned db matchId = false →
      processMatch db matchId tier info gdb champMap itemMap timeline =
        (markScanned
          (aggregateMatch db info tier (patchOf info.gameVersion) (gdb info.gameDuration)
            champMap itemMap timeline)
          matchId (patchOf info.gameVersion) tier, .processed)
      ∧ (aggregateMatch db info tier (patchOf info.gameVersion) (gdb info.gameDuration)
          champMap itemMap timeline).scanned = db.scanned)
    ∧ processMatch (processMatch db matchId tier info gdb champMap itemMap timeline).1
        matchId tier info gdb champMap itemMap timeline
        = ((processMatch db matchId tier info gdb champMap itemMap timeline).1, .skipped) := by
  refine ⟨?_, ?_, ?_⟩
  · intro h
    simp [processMatch, h]
  · intro h
    exact ⟨by simp [processMatch, h], scanned_aggregateMatch ..⟩
  · by_cases h : isScanned db matchId
    · simp [processMatch, h]
    · have hfalse : isScanned db matchId = false := by
        revert h
        cases isScanned db matchId <;> simp
      have hmark : isScanned
          (markScanned
            (aggregateMatch db info tier (patchOf info.gameVersion) (gdb info.gameDuration)
              champMap itemMap timeline)
            matchId (patchOf info.gameVersion) tier) matchId = true := by
        simp [isScanned, markScanned]
      simp only [processMatch, hfalse, Bool.false_eq_true, if_false]
      simp [hmark]

/-- Witness for C4: a store already holding the marker for match `EUW1_1`
skips reprocessing and is returned unchanged. -/
theorem c4_idempotent_skip_witness :
    processMatch { scanned := [{ id := "EUW1_1", patch := "14.1", tier := "CHALLENGER" }] }
        "EUW1_1" "CHALLENGER" {} (fun _ => "MEDIUM") (fun _ => none) (fun _ => none) none
      = ({ scanned := [{ id := "EUW1_1", patch := "14.1", tier := "CHALLENGER" }] },
          .skipped) :=
  (c4_idempotent_skip
    { scanned := [{ id := "EUW1_1", patch := "14.1", tier := "CHALLENGER" }] }
    "EUW1_1" "CHALLENGER" {} (fun _ => "MEDIUM") (fun _ => none) (fun _ => none) none).1 (by decide)

/-- A participant with the unrecognized raw position label `FOO`. -/
def fooParticipant : APart :=
  { participantId := 1, teamId := 100, teamPosition := "FOO", championName := "Ahri", win := true }

/-- A one-participant match info around `fooParticipant`. -/
def fooInfo : MatchInfo :=
  { participants := [fooParticipant], gameDuration := 1800 }

/-- Claim C7, counterexample.  `normalizeRole` passes any label other than
`MIDDLE`/`BOTTOM`/`UTILITY` through unchanged and the processing guard only
drops the empty and `Invalid` labels, so a participant with the unrecognized
position `FOO` is *not* excluded: a champion bucket upsert is issued for it,
keyed under role `FOO`. -/
theorem c7_unrecognized_role_counterexample :
    ((processSingleParticipant {} fooParticipant fooInfo "CHALLENGER" "14.1" "MEDIUM"
        (fun _ => none) none (computeTeamStats fooInfo)).champRows.map
      (fun r => (r.championId, r.role))) = [("Ahri", "FOO")] := by
  decide

/-- Claim C7, amended: a participant is excluded from champion, matchup and
duo aggregation exactly when the normalized position label is empty or
`Invalid` (any other label, recognized or not, is aggregated under its
normalized name); ban recording runs before and independently of the
participant loop and depends only on the teams' ban lists, not on any
participant's role. -/
theorem c7_role_exclusion (db : DB) (p : APart) (info : MatchInfo)
    (tier patch durationBucket : String) (itemMap : Int → Option ItemData)
    (timeline : Option (List TLEvent)) (teamStats : TeamStatsRec)
    (h : normalizeRole p.teamPosition = "" ∨ normalizeRole p.teamPosition = "Invalid") :
    processSingleParticipant db p info tier patch durationBucket itemMap timeline teamStats = db
    ∧ (∀ (dbz : DB) (champMap : Int → Option String),
        aggregateMatch dbz info tier patch durationBucket champMap itemMap timeline =
          info.participants.foldl
            (fun dbAcc q => processSingleParticipant dbAcc q info tier patch durationBucket
              itemMap timeline (computeTeamStats info))
            (processBans dbz info.teams champMap tier patch durationBucket))
    ∧ (∀ (dbz : DB) (champMap : Int → Option String) (infoA infoB : MatchInfo),
        infoA.teams = infoB.teams →
        processBans dbz infoA.teams champMap tier patch durationBucket =
          processBans dbz infoB.teams champMap tier patch durationBucket) := by
  refine ⟨?_, fun _ _ => rfl, fun _ _ _ _ hteams => by rw [hteams]⟩
  unfold processSingleParticipant
  dsimp only
  rcases h with h | h <;> rw [h] <;> simp

/-- Witness for C7's amended theorem: a participant with an empty position
label leaves the store untouched. -/
theorem c7_role_exclusion_witness :
    processSingleParticipant {} { teamPosition := "" } {} "CHALLENGER" "14.1" "MEDIUM"
      (fun _ => none) none {} = {} :=
  (c7_role_exclusion {} { teamPosition := "" } {} "CHALLENGER" "14.1" "MEDIUM"
    (fun _ => none) none {} (Or.inl (by decide))).1

theorem slotKeysFold_lookup_ne (coreKey : String) (ubp : List Int) (win : Bool) (m : FreqMap)
    (k : String) (h : ∀ y : String, k ≠ coreKey ++ y) :
    slotKeysFold coreKey ubp win m k = m k := by
  have hstep : ∀ (mz : FreqMap) (idx : Nat),
      (if idx + 1 ≤ ubp.length then
        mz.bump (coreKey ++ "_slot" ++ toString (idx + 1) ++ "_" ++ toString (ubp.getD idx 0)) win
       else mz) k = mz k := by
    intro mz idx
    split
    · refine FreqMap.bump_lookup_ne _ _ _ _ ?_
      rw [String.append_assoc, String.append_assoc, String.append_assoc]
      exact h _
    · rfl
  unfold slotKeysFold
  simp only [List.foldl_cons, List.foldl_nil]
  rw [hstep, hstep, hstep]

/-- The starting-item / core-build / situational-slot mining of `extractItems`
only touches `start_`- and `core_`-prefixed keys: at any other key the result
agrees with the final-build and per-item contributions alone. -/
theorem extractItems_lookup_plain (p : APart) (cleanEvents : List TLEvent)
    (itemMap : Int → Option ItemData) (k : String)
    (hs : ∀ s : String, k ≠ "start_" ++ s) (hcc : ∀ s : String, k ≠ "core_" ++ s) :
    extractItems p cleanEvents itemMap k =
      ((sortAsc (filteredFinalItems p)).foldl (fun m id => m.bump (toString id) p.win)
        (if joinIds (sortAsc (filteredFinalItems p)) ≠ "" then
          FreqMap.empty.set (joinIds (sortAsc (filteredFinalItems p)))
            { wins := if p.win then 1 else 0, matchesN := 1,
              build := some (sortAsc (filteredFinalItems p)) }
         else FreqMap.empty)) k := by
  have hslotkey : ∀ x y : String, k ≠ ("core_" ++ x) ++ y := by
    intro x y
    rw [String.append_assoc]
    exact hcc _
  unfold extractItems
  dsimp only
  split
  · split
    · rw [slotKeysFold_lookup_ne _ _ _ _ _ (fun y => hslotkey _ y),
        FreqMap.bump_lookup_ne _ _ _ _ (hcc _)]
      split
      · rw [FreqMap.bump_lookup_ne _ _ _ _ (hs _)]
      · rfl
    · split
      · rw [FreqMap.bump_lookup_ne _ _ _ _ (hs _)]
      · rfl
  · rfl

/-- Claim C10: when the filtered final item list is a single item id `a`, the
sorted-joined final-build key coincides with the per-item key `toString a`, so
`extractItems` records a single entry at that key carrying both contributions
of the one match: `matches = 2`, and `wins = 2` on a win (0 on a loss).  (The
hypotheses that `toString a` is non-empty and not `start_`/`core_`-prefixed
are facts about decimal rendering, discharged concretely in the witness.) -/
theorem c10_single_item_key (p : APart) (cleanEvents : List TLEvent)
    (itemMap : Int → Option ItemData) (a : Int)
    (hfilter : filteredFinalItems p = [a]) (h0 : toString a ≠ "")
    (hs : ∀ s : String, toString a ≠ "start_" ++ s)
    (hcc : ∀ s : String, toString a ≠ "core_" ++ s) :
    joinIds (sortAsc (filteredFinalItems p)) = toString a
    ∧ extractItems p cleanEvents itemMap (toString a) =
        some { wins := if p.win then 2 else 0, matchesN := 2, build := some [a] } := by
  have hsort : sortAsc (filteredFinalItems p) = [a] := by
    rw [hfilter]
    rfl
  have hjoin : joinIds (sortAsc (filteredFinalItems p)) = toString a := by
    rw [hsort]
    rfl
  refine ⟨hjoin, ?_⟩
  rw [extractItems_lookup_plain p cleanEvents itemMap (toString a) hs hcc, hsort]
  have hjoin2 : joinIds [a] = toString a := rfl
  rw [hjoin2, if_pos h0]
  simp only [List.foldl_cons, List.foldl_nil]
  unfold FreqMap.bump
  rw [FreqMap.set_lookup_eq]
  dsimp only
  rw [FreqMap.set_lookup_eq]
  cases hw : p.win <;> simp <;> norm_num

/-- Witness for C10: a winning participant whose only final item is 3031 (and
a timeline purchase of it) yields the single entry `{wins: 2, matches: 2}` at
key `"3031"`. -/
theorem c10_single_item_key_witness :
    extractItems { item0 := 3031, win := true } [purchaseEv 3031 1000] (fun _ => none)
        (toString (3031 : Int))
      = some { wins := 2, matchesN := 2, build := some [3031] } := by
  have hs : ∀ s : String, toString (3031 : Int) ≠ "start_" ++ s := by
    intro s hEq
    have hlen := congrArg String.length hEq
    rw [String.length_append] at hlen
    have h4 : (toString (3031 : Int)).length = 4 := by decide
    have h6 : ("start_" : String).length = 6 := by decide
    rw [h4, h6] at hlen
    omega
  have hcc : ∀ s : String, toString (3031 : Int) ≠ "core_" ++ s := by
    intro s hEq
    have hlen := congrArg String.length hEq
    rw [String.length_append] at hlen
    have h4 : (toString (3031 : Int)).length = 4 := by decide
    have h5 : ("core_" : String).length = 5 := by decide
    rw [h4, h5] at hlen
    omega
  exact (c10_single_item_key { item0 := 3031, win := true } [purchaseEv 3031 1000]
    (fun _ => none) 3031 (by decide) (by decide) hs hcc).2

/-- The `extractItems` delta of a winning participant whose only final item is
3031: its entry at key `"3031"` is the final-build entry and carries
`build = [3031]`. -/
def c6DeltaSingle : FreqMap :=
  extractItems { item0 := 3031, win := true } [] (fun _ => none)

/-- The `extractItems` delta of a participant with final items 3031 and 3089:
its entry at key `"3031"` is a per-item entry with no `build` payload (the
final-build entry lives at `"3031-3089"`). -/
def c6DeltaPair : FreqMap :=
  extractItems { item0 := 3031, item1 := 3089 } [] (fun _ => none)

/-- Claim C6, counterexample.  On two reachable `extractItems` deltas sharing
key `"3031"` — one carrying the `build` payload there, the other not — the
upsert-side `merge` is order-dependent: `else t[k] = source[k]` installs the
first-merged entry verbatim, so merging into the empty base in one order keeps
`build = [3031]` and in the other order keeps no `build`; the resulting maps
are not the same, refuting the claim's universal order-independence. -/
theorem c6_merge_order_counterexample :
    mergeMaps (mergeMaps FreqMap.empty c6DeltaSingle) c6DeltaPair "3031"
        = some { wins := 2, matchesN := 3, build := some [3031] }
    ∧ mergeMaps (mergeMaps FreqMap.empty c6DeltaPair) c6DeltaSingle "3031"
        = some { wins := 2, matchesN := 3, build := none }
    ∧ mergeMaps (mergeMaps FreqMap.empty c6DeltaSingle) c6DeltaPair
        ≠ mergeMaps (mergeMaps FreqMap.empty c6DeltaPair) c6DeltaSingle := by
  have hs3031 : ∀ s : String, ("3031" : String) ≠ "start_" ++ s := by
    intro s hEq
    have hlen := congrArg String.length hEq
    rw [String.length_append] at hlen
    have h4 : ("3031" : String).length = 4 := by decide
    have h6 : ("start_" : String).length = 6 := by decide
    rw [h4, h6] at hlen
    omega
  have hc3031 : ∀ s : String, ("3031" : String) ≠ "core_" ++ s := by
    intro s hEq
    have hlen := congrArg String.length hEq
    rw [String.length_append] at hlen
    have h4 : ("3031" : String).length = 4 := by decide
    have h5 : ("core_" : String).length = 5 := by decide
    rw [h4, h5] at hlen
    omega
  have hA : c6DeltaSingle "3031" = some { wins := 2, matchesN := 2, build := some [3031] } := by
    unfold c6DeltaSingle
    rw [extractItems_lookup_plain _ _ _ _ hs3031 hc3031]
    simp only [show filteredFinalItems { item0 := 3031, win := true } = [3031] from by decide]
    simp only [show sortAsc [(3031 : Int)] = [3031] from rfl]
    simp only [show joinIds [(3031 : Int)] = "3031" from rfl]
    rw [if_pos (show ("3031" : String) ≠ "" from by decide)]
    simp only [List.foldl_cons, List.foldl_nil,
      show toString (3031 : Int) = "3031" from rfl]
    unfold FreqMap.bump
    rw [FreqMap.set_lookup_eq]
    dsimp only
    rw [FreqMap.set_lookup_eq]
    norm_num
  have hB : c6DeltaPair "3031" = some { wins := 0, matchesN := 1, build := none } := by
    unfold c6DeltaPair
    rw [extractItems_lookup_plain _ _ _ _ hs3031 hc3031]
    simp only [show filteredFinalItems { item0 := 3031, item1 := 3089 }
      = [3031, 3089] from by decide]
    simp only [show sortAsc [(3031 : Int), 3089] = [3031, 3089] from rfl]
    simp only [show joinIds [(3031 : Int), 3089] = "3031-3089" from rfl]
    rw [if_pos (show ("3031-3089" : String) ≠ "" from by decide)]
    simp only [List.foldl_cons, List.foldl_nil,
      show toString (3031 : Int) = "3031" from rfl,
      show toString (3089 : Int) = "3089" from rfl]
    rw [FreqMap.bump_lookup_ne _ _ _ _ (show ("3031" : String) ≠ "3089" from by decide)]
    unfold FreqMap.bump
    rw [FreqMap.set_lookup_ne _ _ _ _ (show ("3031" : String) ≠ "3031-3089" from by decide)]
    dsimp only [FreqMap.empty]
    rw [FreqMap.set_lookup_eq]
    norm_num
  have hLHS : mergeMaps (mergeMaps FreqMap.empty c6DeltaSingle) c6DeltaPair "3031"
      = some { wins := 2, matchesN := 3, build := some [3031] } := by
    simp only [mergeMaps, FreqMap.empty, hA, hB]
    norm_num
  have hRHS : mergeMaps (mergeMaps FreqMap.empty c6DeltaPair) c6DeltaSingle "3031"
      = some { wins := 2, matchesN := 3, build := none } := by
    simp only [mergeMaps, FreqMap.empty, hA, hB]
    norm_num
  refine ⟨hLHS, hRHS, fun h => ?_⟩
  have hx := congrFun h "3031"
  rw [hLHS, hRHS] at hx
  simp at hx

end SOL
